import Mathlib

/-!
Verification development for the teresa-api Kubernetes client
(`pkg/server/k8s/client.go`).  The Go code drives deployment lifecycle
operations against a cluster control plane: create-or-update application of
manifests, merge patches for incremental mutations, and a run-to-completion
pod session with log streaming and exit-code delivery.

Shallow embedding conventions:
  * Calls against the external control plane (build client, get, update,
    create, open logs) are nondeterministic at run time; each is embedded as
    an explicit outcome parameter (`Option K8sErr` for fallible unit-valued
    calls, `Except K8sErr α` for fallible reads), so every theorem quantifies
    over all possible control-plane behaviours.
  * Durations (poll intervals and timeouts) are abstracted by the finite
    list of successive condition evaluations the poller performs before its
    timeout budget is exhausted.
  * The sequential body of the `PodRun` goroutine is embedded as a function
    producing the ordered trace of the events it performs.
-/

namespace K8s

/-- Error values distinguished by the client code: `notFound` models the
control-plane NotFound condition recognised by `Client.IsNotFound`,
`podRunFailed` models `ErrPodRunFailed`, `podStillRunning` models
`ErrPodStillRunning`, `waitTimeout` models `wait.ErrWaitTimeout`, and
`other` covers every remaining (transport, permission, ...) error. -/
inductive K8sErr where
  | notFound
  | podRunFailed
  | podStillRunning
  | waitTimeout
  | other (msg : String)
deriving DecidableEq

/-- Pod lifecycle phases, mirroring `k8sv1.PodPhase` values used by the
client (`PodPending`, `PodRunning`, `PodSucceeded`, `PodFailed`,
`PodUnknown`). -/
inductive PodPhase where
  | pending
  | running
  | succeeded
  | failed
  | unknown
deriving DecidableEq

/-- Result of one evaluation of a poll condition function, mirroring the Go
`wait.ConditionFunc` signature `func() (done bool, err error)`. -/
structure CondResult where
  done : Bool
  err : Option K8sErr
deriving DecidableEq

/-- Modelled from the spec: the Bounded Poller (`wait.PollImmediate` from
k8s.io/apimachinery, external to this repository).  The spec (§4.1) states
that the condition is evaluated immediately on entry and then once per
interval until the timeout window closes; a condition error aborts the poll
at once and is propagated, a `done` result stops with success, and an
exhausted window yields a timeout error distinct from any hard failure.
The argument list is the sequence of condition evaluations that fit in the
timeout budget; `none` is success, `some e` is the propagated error. -/
def pollList : List CondResult → Option K8sErr
  | [] => some K8sErr.waitTimeout
  | c :: rest =>
    match c.err with
    | some e => some e
    | none => if c.done then none else pollList rest

/-- One observation made by a poll tick: the outcome of
`podsClient.Get(pod.Name, ...)`, either an error or the pod's phase. -/
abbrev PhaseObs := Except K8sErr PodPhase

/-- Condition function of `Client.waitPodStart` (client.go:654-664): a get
error aborts the poll; phase `failed` stops immediately with
`ErrPodRunFailed`; otherwise done iff the phase is `running` or
`succeeded`. -/
def waitPodStartCond (obs : PhaseObs) : CondResult :=
  match obs with
  | Except.error e => ⟨false, some e⟩
  | Except.ok p =>
    if p = PodPhase.failed then ⟨true, some K8sErr.podRunFailed⟩
    else ⟨p = PodPhase.running || p = PodPhase.succeeded, none⟩

/-- `Client.waitPodStart` (client.go:648-665): build the client, then poll
the start condition over the successive pod observations. -/
def waitPodStart (build : Option K8sErr) (obs : List PhaseObs) : Option K8sErr :=
  match build with
  | some e => some e
  | none => pollList (obs.map waitPodStartCond)

/-- Condition function of `Client.waitPodEnd` (client.go:673-680): a get
error aborts the poll; done iff the phase is `succeeded` or `failed`, with
no error attached in either case. -/
def waitPodEndCond (obs : PhaseObs) : CondResult :=
  match obs with
  | Except.error e => ⟨false, some e⟩
  | Except.ok p => ⟨p = PodPhase.succeeded || p = PodPhase.failed, none⟩

/-- `Client.waitPodEnd` (client.go:667-681): build the client, then poll the
end condition over the successive pod observations. -/
def waitPodEnd (build : Option K8sErr) (obs : List PhaseObs) : Option K8sErr :=
  match build with
  | some e => some e
  | none => pollList (obs.map waitPodEndCond)

/-- Terminated-container state, mirroring the `exitCode` field of
`k8sv1.ContainerStateTerminated` read by `podExitCode`. -/
structure ContainerStateTerminated where
  exitCode : Int
deriving DecidableEq

/-- Container status, mirroring the `State.Terminated` field inspected by
`podExitCode` (`nil` becomes `none`). -/
structure ContainerStatus where
  terminated : Option ContainerStateTerminated
deriving DecidableEq

/-- Pod status as read back by `podExitCode`: the phase and the list of
container statuses. -/
structure PodStatus where
  phase : PodPhase
  containerStatuses : List ContainerStatus
deriving DecidableEq

/-- Loop body of `Client.podExitCode` (client.go:693-699): scan the
container statuses in order and return the first terminated state. -/
def firstTerminated : List ContainerStatus → Option ContainerStateTerminated
  | [] => none
  | cs :: rest =>
    match cs.terminated with
    | some st => some st
    | none => firstTerminated rest

/-- `Client.podExitCode` (client.go:683-701): on a client-build or get error
return `(1, err)`; otherwise return the exit code of the first container
with a terminated state, or `(1, ErrPodStillRunning)` when no container has
one. -/
def podExitCode (build : Option K8sErr) (getRes : Except K8sErr PodStatus) :
    Int × Option K8sErr :=
  match build with
  | some e => (1, some e)
  | none =>
    match getRes with
    | Except.error e => (1, some e)
    | Except.ok p =>
      match firstTerminated p.containerStatuses with
      | some st => (st.exitCode, none)
      | none => (1, some K8sErr.podStillRunning)

/-- Deployment status subset read by `currentPodReplicasFromDeploy`: the
`Status.Replicas` field (a Go `int32`, embedded as `Int`; only order
comparisons are performed, so no wrap-around arises). -/
structure DeployStatus where
  replicas : Int
deriving DecidableEq

/-- `Client.currentPodReplicasFromDeploy` (client.go:703-715): return 1 when
the client cannot be built, when the deployment read fails (including
NotFound), or when the live status reports fewer than 1 replica; otherwise
return the live replica count. -/
def currentPodReplicasFromDeploy (build : Option K8sErr)
    (getRes : Except K8sErr DeployStatus) : Int :=
  match build with
  | some _ => 1
  | none =>
    match getRes with
    | Except.error _ => 1
    | Except.ok d => if d.replicas < 1 then 1 else d.replicas

/-- Modelled from the spec: `Client.IsNotFound` is declared in this
repository outside the provided source file; per the spec (§6, §7) it
recognises exactly the control-plane NotFound condition and nothing else,
and a `nil` error is not NotFound. -/
def IsNotFound : Option K8sErr → Bool
  | some K8sErr.notFound => true
  | _ => false

/-- Outcome of one create-or-update application: the error returned to the
caller and whether the create fallback was attempted. -/
structure ApplyResult where
  err : Option K8sErr
  createAttempted : Bool
deriving DecidableEq

/-- Shared create-or-update pattern (client.go:309-313, 324-328, 464-468,
483-487, 501-505): attempt the update, and if and only if the update error
is NotFound attempt the create, returning its error; any other update
outcome (success or failure) is returned unmodified with no create. -/
def createOrUpdate (updateRes createRes : Option K8sErr) : ApplyResult :=
  if IsNotFound updateRes then ⟨createRes, true⟩ else ⟨updateRes, false⟩

/-- `Client.CreateOrUpdateSecret` (client.go:294-314): build the client and
the secret manifest (the manifest construction cannot fail), then apply the
create-or-update pattern. -/
def CreateOrUpdateSecret (build : Option K8sErr)
    (updateRes createRes : Option K8sErr) : ApplyResult :=
  match build with
  | some e => ⟨some e, false⟩
  | none => createOrUpdate updateRes createRes

/-- `Client.CreateOrUpdateConfigMap` (client.go:457-469): build the client
and the config-map manifest via `configMapSpec` (cannot fail), then apply
the create-or-update pattern. -/
def CreateOrUpdateConfigMap (build : Option K8sErr)
    (updateRes createRes : Option K8sErr) : ApplyResult :=
  match build with
  | some e => ⟨some e, false⟩
  | none => createOrUpdate updateRes createRes

/-- `Client.CreateOrUpdateAutoscale` (client.go:316-329): build the client
and the HPA manifest via `newHPA` (cannot fail), then apply the
create-or-update pattern. -/
def CreateOrUpdateAutoscale (build : Option K8sErr)
    (updateRes createRes : Option K8sErr) : ApplyResult :=
  match build with
  | some e => ⟨some e, false⟩
  | none => createOrUpdate updateRes createRes

/-- `Client.CreateOrUpdateCronJob` (client.go:490-506): build the client,
convert the spec via `cronJobSpecToK8sCronJob` (fallible, outcome passed as
`specRes`), then apply the create-or-update pattern. -/
def CreateOrUpdateCronJob (build specRes : Option K8sErr)
    (updateRes createRes : Option K8sErr) : ApplyResult :=
  match build with
  | some e => ⟨some e, false⟩
  | none =>
    match specRes with
    | some e => ⟨some e, false⟩
    | none => createOrUpdate updateRes createRes

/-- Outcome of `CreateOrUpdateDeploy`: the error returned, whether a create
was attempted, and the replica count seeded into the desired manifest
(`none` when control returned before it was computed). -/
structure DeployApplyOutcome where
  err : Option K8sErr
  createAttempted : Bool
  replicasSeeded : Option Int
deriving DecidableEq

/-- `Client.CreateOrUpdateDeploy` (client.go:471-488): build the client,
seed the replica count from `currentPodReplicasFromDeploy` (whose own
client build and deployment read are `replicasBuild`/`replicasGet`),
convert the spec via `deploySpecToK8sDeploy` (fallible, outcome passed as
`specRes`), then apply the create-or-update pattern. -/
def CreateOrUpdateDeploy (build replicasBuild : Option K8sErr)
    (replicasGet : Except K8sErr DeployStatus)
    (specRes updateRes createRes : Option K8sErr) : DeployApplyOutcome :=
  match build with
  | some e => ⟨some e, false, none⟩
  | none =>
    let replicas := currentPodReplicasFromDeploy replicasBuild replicasGet
    match specRes with
    | some e => ⟨some e, false, some replicas⟩
    | none =>
      let r := createOrUpdate updateRes createRes
      ⟨r.err, r.createAttempted, some replicas⟩

/-- Log options, mirroring `app.LogOptions` as filled in by `PodRun`
(client.go:535): unspecified Go fields take their zero values. -/
structure LogOptions where
  lines : Int
  follow : Bool
  previous : Bool
  container : String
deriving DecidableEq

/-- The options `PodRun` opens the log stream with (client.go:535):
`Lines: 10, Follow: true`, remaining fields zero-valued. -/
def podRunLogOpts : LogOptions :=
  { lines := 10, follow := true, previous := false, container := "" }

/-- One entry of the delete-env-var patch payload, mirroring the anonymous
Go struct of `convertAppDeleteEnvVar` (client.go:845-848): `name`
serialises under the JSON key "name" and `patchDirective` under the JSON
key "$patch". -/
structure DeleteEnvVarEntry where
  name : String
  patchDirective : String
deriving DecidableEq

/-- `convertAppDeleteEnvVar` (client.go:844-855): map each variable name to
an entry carrying the explicit deletion directive "delete". -/
def convertAppDeleteEnvVar (evNames : List String) : List DeleteEnvVarEntry :=
  evNames.map fun n => ⟨n, "delete"⟩

/-- Structured content of the env-var patch payload produced by
`prepareEnvVarsPath` with `patchDeployEnvVarsTmpl` or
`patchCronJobEnvVarsTmpl` (client.go:30-31, 753-760) when the value is a
delete-env-var list: the change-cause annotation text, the pod-template
date stamp, the target container name, and the env entry list (the two
templates nest the container list at different JSON paths but embed the
same entries). -/
structure EnvPatchPayload where
  changeCause : String
  dateStamp : String
  containerName : String
  env : List DeleteEnvVarEntry
deriving DecidableEq

/-- Payload built by `patchDeployEnvVars` via `prepareEnvVarsPath`
(client.go:753-780) for a delete-env-var mutation: change cause
"update env vars", the current time stamp, the container named after the
deploy, and the converted entries. -/
def deployDeleteEnvPayload (now name : String) (evNames : List String) :
    EnvPatchPayload :=
  ⟨"update env vars", now, name, convertAppDeleteEnvVar evNames⟩

/-- `Client.DeleteDeployEnvVars` (client.go:873-875): delegate to
`patchDeployEnvVars` with `convertAppDeleteEnvVar evNames`; the function
returns the payload it submits. -/
def DeleteDeployEnvVars (now ns name : String)
    (evNames : List String) : EnvPatchPayload :=
  deployDeleteEnvPayload now name evNames

/-- `Client.DeleteCronJobEnvVars` (client.go:877-879): delegate to
`patchCronJobEnvVars` with `convertAppDeleteEnvVar evNames`; the payload
content is the same, nested under the cron-job template path. -/
def DeleteCronJobEnvVars (now ns name : String)
    (evNames : List String) : EnvPatchPayload :=
  deployDeleteEnvPayload now name evNames

/-- Observable events performed by the `PodRun` session goroutine
(client.go:525-552), in the order the sequential goroutine body performs
them.  `closeStream` and `closeChan` model the deferred `w.Close()` and
`close(exitCodeChan)`; `emit` models `exitCodeChan <- exitCode`;
`deletePodAsync` models the fire-and-forget `go k.DeletePod`. -/
inductive SessionEv where
  | startWait
  | openLogs (opts : LogOptions)
  | copyStart
  | copyEnd
  | endWaitStart
  | endWaitEnd
  | readExitCode
  | emit (code : Int)
  | deletePodAsync
  | closeStream
  | closeChan
deriving DecidableEq

/-- Control-plane behaviour observed by one run session: the client-build
outcomes and pod observations consumed by the start-wait, the log-stream
open outcome, the end-wait inputs, and the exit-code read inputs. -/
structure RunEnv where
  startBuild : Option K8sErr
  startObs : List PhaseObs
  logsRes : Option K8sErr
  endBuild : Option K8sErr
  endObs : List PhaseObs
  exitBuild : Option K8sErr
  exitGet : Except K8sErr PodStatus

/-- Events up to and including entering the end-wait, shared by every path
that got past the log-stream open. -/
def streamedPrefix : List SessionEv :=
  [SessionEv.startWait, SessionEv.openLogs podRunLogOpts,
   SessionEv.copyStart, SessionEv.copyEnd, SessionEv.endWaitStart]

/-- Trace of the `PodRun` goroutine body (client.go:525-552): run the
start-wait and return on failure; open the log stream and return on
failure; copy the stream to the pipe to completion; run the end-wait and
return on failure; read the exit code and return on failure; send the exit
code on the channel and trigger the asynchronous delete.  Every path ends
with the deferred `w.Close()` followed by `close(exitCodeChan)`. -/
def runSessionTrace (env : RunEnv) : List SessionEv :=
  match waitPodStart env.startBuild env.startObs with
  | some _ => [SessionEv.startWait, SessionEv.closeStream, SessionEv.closeChan]
  | none =>
    match env.logsRes with
    | some _ =>
      [SessionEv.startWait, SessionEv.openLogs podRunLogOpts,
       SessionEv.closeStream, SessionEv.closeChan]
    | none =>
      match waitPodEnd env.endBuild env.endObs with
      | some _ => streamedPrefix ++ [SessionEv.closeStream, SessionEv.closeChan]
      | none =>
        match podExitCode env.exitBuild env.exitGet with
        | (_, some _) =>
          streamedPrefix ++
            [SessionEv.endWaitEnd, SessionEv.readExitCode,
             SessionEv.closeStream, SessionEv.closeChan]
        | (c, none) =>
          streamedPrefix ++
            [SessionEv.endWaitEnd, SessionEv.readExitCode, SessionEv.emit c,
             SessionEv.deletePodAsync, SessionEv.closeStream, SessionEv.closeChan]

/-- `Client.PodRun` foreground (client.go:508-554): fail without starting a
session when the client build, the pod-spec conversion
(`podSpecToK8sPod`), or the pod create fails; otherwise the session
goroutine runs and its trace is returned. -/
def PodRun (build specRes createRes : Option K8sErr) (env : RunEnv) :
    Except K8sErr (List SessionEv) :=
  match build with
  | some e => Except.error e
  | none =>
    match specRes with
    | some e => Except.error e
    | none =>
      match createRes with
      | some e => Except.error e
      | none => Except.ok (runSessionTrace env)

/-- Values emitted on the completion channel during a session trace. -/
def emissions (tr : List SessionEv) : List Int :=
  tr.filterMap fun ev =>
    match ev with
    | SessionEv.emit c => some c
    | _ => none

/-- Whether any of the four session stages fails on the given control-plane
behaviour (start-wait, log-stream open, end-wait, exit-code read). -/
def sessionInternalFailure (env : RunEnv) : Bool :=
  (waitPodStart env.startBuild env.startObs).isSome
  || env.logsRes.isSome
  || (waitPodEnd env.endBuild env.endObs).isSome
  || (podExitCode env.exitBuild env.exitGet).2.isSome

/-- Whether a trace shows the session entering the Streaming or end-wait
phase (opening logs, copying, or polling for the end). -/
def sessionEnteredStreaming (tr : List SessionEv) : Bool :=
  tr.any fun ev =>
    match ev with
    | SessionEv.openLogs _ => true
    | SessionEv.copyStart => true
    | SessionEv.copyEnd => true
    | SessionEv.endWaitStart => true
    | SessionEv.endWaitEnd => true
    | _ => false

/-- Whether the trace shows the log copy still running (not yet finished)
when the end-wait starts: true iff the end-wait start event precedes the
copy-end event. -/
def copyOverlapsEndWait (tr : List SessionEv) : Bool :=
  match tr.findIdx? (fun ev => ev = SessionEv.copyEnd),
        tr.findIdx? (fun ev => ev = SessionEv.endWaitStart) with
  | some i, some j => decide (j < i)
  | _, _ => false

/-- Whether every log copy in the trace is fully finished before the
end-wait starts (vacuously true when no copy occurs). -/
def copyEndsBeforeEndWait (tr : List SessionEv) : Bool :=
  match tr.findIdx? (fun ev => ev = SessionEv.copyEnd),
        tr.findIdx? (fun ev => ev = SessionEv.endWaitStart) with
  | some i, some j => decide (i < j)
  | some _, none => false
  | none, _ => true

/-- Observation of a pod that has not yet started and is not terminal:
phase `pending` or `unknown`, read successfully. -/
def notYetStartedObs : PhaseObs → Bool
  | Except.ok PodPhase.pending => true
  | Except.ok PodPhase.unknown => true
  | _ => false

/-- Observation of a pod that has not ended: phase `pending`, `running` or
`unknown`, read successfully. -/
def notEndedObs : PhaseObs → Bool
  | Except.ok PodPhase.pending => true
  | Except.ok PodPhase.running => true
  | Except.ok PodPhase.unknown => true
  | _ => false

/-- A control-plane behaviour on which every session stage succeeds: the
pod starts running, its logs stream, it ends in phase `succeeded`, and its
single container terminated with exit code 0. -/
def envOk : RunEnv :=
  { startBuild := none
    startObs := [Except.ok PodPhase.running]
    logsRes := none
    endBuild := none
    endObs := [Except.ok PodPhase.succeeded]
    exitBuild := none
    exitGet := Except.ok ⟨PodPhase.succeeded, [⟨some ⟨0⟩⟩]⟩ }

/-- A control-plane behaviour whose pod is observed `pending` once and then
`failed` before ever running. -/
def envStartFail : RunEnv :=
  { startBuild := none
    startObs := [Except.ok PodPhase.pending, Except.ok PodPhase.failed]
    logsRes := none
    endBuild := none
    endObs := []
    exitBuild := none
    exitGet := Except.error K8sErr.podStillRunning }

/-! ### Helper lemmas about the session trace shapes -/

/-- Trace shape when the start-wait fails. -/
theorem trace_start_err (env : RunEnv) (e : K8sErr)
    (hs : waitPodStart env.startBuild env.startObs = some e) :
    runSessionTrace env =
      [SessionEv.startWait, SessionEv.closeStream, SessionEv.closeChan] := by
  unfold runSessionTrace
  rw [hs]

/-- Trace shape when the start-wait succeeds but opening the log stream
fails. -/
theorem trace_logs_err (env : RunEnv) (e : K8sErr)
    (hs : waitPodStart env.startBuild env.startObs = none)
    (hl : env.logsRes = some e) :
    runSessionTrace env =
      [SessionEv.startWait, SessionEv.openLogs podRunLogOpts,
       SessionEv.closeStream, SessionEv.closeChan] := by
  unfold runSessionTrace
  rw [hs, hl]

/-- Trace shape when the copy finishes but the end-wait fails. -/
theorem trace_end_err (env : RunEnv) (e : K8sErr)
    (hs : waitPodStart env.startBuild env.startObs = none)
    (hl : env.logsRes = none)
    (he : waitPodEnd env.endBuild env.endObs = some e) :
    runSessionTrace env =
      streamedPrefix ++ [SessionEv.closeStream, SessionEv.closeChan] := by
  unfold runSessionTrace
  rw [hs, hl, he]

/-- Trace shape when the end-wait succeeds but the exit-code read fails. -/
theorem trace_exit_err (env : RunEnv) (e : K8sErr) (c : Int)
    (hs : waitPodStart env.startBuild env.startObs = none)
    (hl : env.logsRes = none)
    (he : waitPodEnd env.endBuild env.endObs = none)
    (hx : podExitCode env.exitBuild env.exitGet = (c, some e)) :
    runSessionTrace env =
      streamedPrefix ++
        [SessionEv.endWaitEnd, SessionEv.readExitCode,
         SessionEv.closeStream, SessionEv.closeChan] := by
  unfold runSessionTrace
  rw [hs, hl, he, hx]

/-- Trace shape when every stage succeeds. -/
theorem trace_success (env : RunEnv) (c : Int)
    (hs : waitPodStart env.startBuild env.startObs = none)
    (hl : env.logsRes = none)
    (he : waitPodEnd env.endBuild env.endObs = none)
    (hx : podExitCode env.exitBuild env.exitGet = (c, none)) :
    runSessionTrace env =
      streamedPrefix ++
        [SessionEv.endWaitEnd, SessionEv.readExitCode, SessionEv.emit c,
         SessionEv.deletePodAsync, SessionEv.closeStream, SessionEv.closeChan] := by
  unfold runSessionTrace
  rw [hs, hl, he, hx]

/-! ### C1: completion channel and output stream invariant -/

/-- C1: for every run session started by `PodRun` that returns successfully,
the completion channel emits at most one value, the output stream is closed
on every internal path, the channel close is the final event of the session,
and on any failure in start-wait, log streaming, end-wait, or exit-code
extraction the channel is closed without emitting a value. -/
theorem podRun_completion_channel_invariant
    (build specRes createRes : Option K8sErr) (env : RunEnv)
    (tr : List SessionEv)
    (h : PodRun build specRes createRes env = Except.ok tr) :
    (emissions tr).length ≤ 1
    ∧ SessionEv.closeStream ∈ tr
    ∧ tr.getLast? = some SessionEv.closeChan
    ∧ (sessionInternalFailure env = true → emissions tr = []) := by
  have htr : tr = runSessionTrace env := by
    cases build with
    | some e => simp [PodRun] at h
    | none =>
      cases specRes with
      | some e => simp [PodRun] at h
      | none =>
        cases createRes with
        | some e => simp [PodRun] at h
        | none =>
          simp only [PodRun, Except.ok.injEq] at h
          exact h.symm
  subst htr
  rcases hs : waitPodStart env.startBuild env.startObs with _ | e1
  case some =>
    rw [trace_start_err env e1 hs]
    refine ⟨by simp [emissions], by simp, rfl, fun _ => by simp [emissions]⟩
  case none =>
  rcases hl : env.logsRes with _ | e2
  case some =>
    rw [trace_logs_err env e2 hs hl]
    refine ⟨by simp [emissions], by simp, rfl, fun _ => by simp [emissions]⟩
  case none =>
  rcases he : waitPodEnd env.endBuild env.endObs with _ | e3
  case some =>
    rw [trace_end_err env e3 hs hl he]
    refine ⟨by simp [emissions, streamedPrefix], by simp [streamedPrefix],
      rfl, fun _ => by simp [emissions, streamedPrefix]⟩
  case none =>
  rcases hx : podExitCode env.exitBuild env.exitGet with ⟨c, _ | e4⟩
  case none =>
    rw [trace_success env c hs hl he hx]
    have hfail : sessionInternalFailure env = false := by
      simp [sessionInternalFailure, hs, hl, he, hx]
    refine ⟨by simp [emissions, streamedPrefix], by simp [streamedPrefix],
      rfl, fun hcontra => by rw [hfail] at hcontra; cases hcontra⟩
  case some =>
    rw [trace_exit_err env e4 c hs hl he hx]
    refine ⟨by simp [emissions, streamedPrefix], by simp [streamedPrefix],
      rfl, fun _ => by simp [emissions, streamedPrefix]⟩

/-- C1 witness: the invariant instantiated on the all-success behaviour
`envOk` with a successful `PodRun`. -/
theorem podRun_completion_channel_witness :
    (emissions (runSessionTrace envOk)).length ≤ 1
    ∧ SessionEv.closeStream ∈ runSessionTrace envOk
    ∧ (runSessionTrace envOk).getLast? = some SessionEv.closeChan
    ∧ (sessionInternalFailure envOk = true → emissions (runSessionTrace envOk) = []) :=
  podRun_completion_channel_invariant none none none envOk (runSessionTrace envOk) rfl

/-! ### C2: log copy versus end-wait ordering -/

/-- C2 counterexample: on the all-success behaviour `envOk` the session
trace is fully sequential — the log copy finishes (event index 3) strictly
before the end-wait starts (event index 4) — so the copy does not run
concurrently with the end-wait and no output is delivered while the
end-wait is in progress. -/
theorem copy_overlap_end_wait_refuted :
    runSessionTrace envOk =
      [SessionEv.startWait, SessionEv.openLogs podRunLogOpts,
       SessionEv.copyStart, SessionEv.copyEnd, SessionEv.endWaitStart,
       SessionEv.endWaitEnd, SessionEv.readExitCode, SessionEv.emit 0,
       SessionEv.deletePodAsync, SessionEv.closeStream, SessionEv.closeChan]
    ∧ copyOverlapsEndWait (runSessionTrace envOk) = false
    ∧ emissions (runSessionTrace envOk) = [0] := by
  refine ⟨rfl, rfl, rfl⟩

/-- C2 amended: in every run session the copy of the pod's log stream runs
sequentially and completes before the end-wait poll begins (it never
overlaps the end-wait); output produced at any time during the run is still
delivered because the stream is opened with `follow = true` (and a tail
backlog of 10 lines), so the stream keeps yielding output until the pod
terminates, and only then does the end-wait start. -/
theorem copy_completes_before_end_wait (env : RunEnv) :
    copyEndsBeforeEndWait (runSessionTrace env) = true
    ∧ copyOverlapsEndWait (runSessionTrace env) = false
    ∧ podRunLogOpts.follow = true
    ∧ podRunLogOpts.lines = 10 := by
  refine ⟨?_, ?_, rfl, rfl⟩ <;>
  · rcases hs : waitPodStart env.startBuild env.startObs with _ | e1
    case some => rw [trace_start_err env e1 hs]; rfl
    case none =>
    rcases hl : env.logsRes with _ | e2
    case some => rw [trace_logs_err env e2 hs hl]; rfl
    case none =>
    rcases he : waitPodEnd env.endBuild env.endObs with _ | e3
    case some => rw [trace_end_err env e3 hs hl he]; rfl
    case none =>
    rcases hx : podExitCode env.exitBuild env.exitGet with ⟨c, _ | e4⟩
    case none => rw [trace_success env c hs hl he hx]; rfl
    case some => rw [trace_exit_err env e4 c hs hl he hx]; rfl

/-! ### C3 and C6: the two poll predicates -/

/-- A prefix of evaluations that are neither done nor erroneous is skipped
by the poller, which then behaves on the rest as if started there. -/
theorem pollList_skip_leading (cs : List CondResult) (c : CondResult)
    (rest : List CondResult)
    (h : ∀ x ∈ cs, x.done = false ∧ x.err = none) :
    pollList (cs ++ c :: rest) = pollList (c :: rest) := by
  induction cs with
  | nil => rfl
  | cons a as ih =>
    have ha := h a (by simp)
    have hrec := ih fun x hx => h x (by simp [hx])
    simp [pollList, ha.1, ha.2, hrec]

/-- Observations of a not-yet-started pod give a not-done, error-free start
condition. -/
theorem waitPodStartCond_not_started (o : PhaseObs)
    (ho : notYetStartedObs o = true) :
    (waitPodStartCond o).done = false ∧ (waitPodStartCond o).err = none := by
  match o with
  | Except.ok PodPhase.pending => exact ⟨rfl, rfl⟩
  | Except.ok PodPhase.unknown => exact ⟨rfl, rfl⟩
  | Except.ok PodPhase.running => cases ho
  | Except.ok PodPhase.succeeded => cases ho
  | Except.ok PodPhase.failed => cases ho
  | Except.error e => cases ho

/-- Observations of a not-yet-ended pod give a not-done, error-free end
condition. -/
theorem waitPodEndCond_not_ended (o : PhaseObs)
    (ho : notEndedObs o = true) :
    (waitPodEndCond o).done = false ∧ (waitPodEndCond o).err = none := by
  match o with
  | Except.ok PodPhase.pending => exact ⟨rfl, rfl⟩
  | Except.ok PodPhase.running => exact ⟨rfl, rfl⟩
  | Except.ok PodPhase.unknown => exact ⟨rfl, rfl⟩
  | Except.ok PodPhase.succeeded => cases ho
  | Except.ok PodPhase.failed => cases ho
  | Except.error e => cases ho

/-- C3: when the pod is observed in the `failed` phase before ever being
observed `running` (or `succeeded`), the start-wait stops immediately with
the hard failure `ErrPodRunFailed`, which is distinct from the timeout
error, and the session never opens the log stream, copies output, or enters
the end-wait. -/
theorem failed_before_running_hard_failure (env : RunEnv)
    (pre rest : List PhaseObs)
    (hb : env.startBuild = none)
    (hobs : env.startObs = pre ++ Except.ok PodPhase.failed :: rest)
    (hpre : ∀ o ∈ pre, notYetStartedObs o = true) :
    waitPodStart env.startBuild env.startObs = some K8sErr.podRunFailed
    ∧ K8sErr.podRunFailed ≠ K8sErr.waitTimeout
    ∧ sessionEnteredStreaming (runSessionTrace env) = false := by
  have hwait : waitPodStart env.startBuild env.startObs
      = some K8sErr.podRunFailed := by
    rw [hb, hobs]
    show pollList ((pre ++ Except.ok PodPhase.failed :: rest).map waitPodStartCond)
      = some K8sErr.podRunFailed
    rw [List.map_append, List.map_cons]
    rw [pollList_skip_leading _ _ _ (fun x hx => by
      rcases List.mem_map.mp hx with ⟨o, ho, rfl⟩
      exact waitPodStartCond_not_started o (hpre o ho))]
    rfl
  refine ⟨hwait, by decide, ?_⟩
  rw [trace_start_err env K8sErr.podRunFailed hwait]
  rfl

/-- C3 witness: the hard-failure property instantiated on `envStartFail`,
whose pod is observed `pending` and then `failed`. -/
theorem failed_before_running_witness :
    waitPodStart envStartFail.startBuild envStartFail.startObs
      = some K8sErr.podRunFailed
    ∧ K8sErr.podRunFailed ≠ K8sErr.waitTimeout
    ∧ sessionEnteredStreaming (runSessionTrace envStartFail) = false :=
  failed_before_running_hard_failure envStartFail
    [Except.ok PodPhase.pending] [] rfl rfl (by decide)

/-- C6: the end-wait reports success as soon as the pod's phase is either
`succeeded` or `failed` — its condition treats both phases as done with no
error attached — unlike the start-wait condition, which turns the `failed`
phase into the hard failure `ErrPodRunFailed`. -/
theorem end_wait_terminal_on_both_phases (pre rest : List PhaseObs)
    (p : PodPhase)
    (hpre : ∀ o ∈ pre, notEndedObs o = true)
    (hp : p = PodPhase.succeeded ∨ p = PodPhase.failed) :
    waitPodEnd none (pre ++ Except.ok p :: rest) = none
    ∧ (waitPodEndCond (Except.ok PodPhase.failed)).done = true
    ∧ (waitPodEndCond (Except.ok PodPhase.failed)).err = none
    ∧ (waitPodEndCond (Except.ok PodPhase.succeeded)).done = true
    ∧ (waitPodStartCond (Except.ok PodPhase.failed)).err
        = some K8sErr.podRunFailed := by
  refine ⟨?_, rfl, rfl, rfl, rfl⟩
  show pollList ((pre ++ Except.ok p :: rest).map waitPodEndCond) = none
  rw [List.map_append, List.map_cons]
  rw [pollList_skip_leading _ _ _ (fun x hx => by
    rcases List.mem_map.mp hx with ⟨o, ho, rfl⟩
    exact waitPodEndCond_not_ended o (hpre o ho))]
  rcases hp with rfl | rfl <;> rfl

/-- C6 witness: the end-wait succeeds on a pod observed `running` and then
`failed`. -/
theorem end_wait_terminal_witness :
    waitPodEnd none ([Except.ok PodPhase.running]
        ++ Except.ok PodPhase.failed :: []) = none
    ∧ (waitPodEndCond (Except.ok PodPhase.failed)).done = true
    ∧ (waitPodEndCond (Except.ok PodPhase.failed)).err = none
    ∧ (waitPodEndCond (Except.ok PodPhase.succeeded)).done = true
    ∧ (waitPodStartCond (Except.ok PodPhase.failed)).err
        = some K8sErr.podRunFailed :=
  end_wait_terminal_on_both_phases [Except.ok PodPhase.running] []
    PodPhase.failed (by decide) (Or.inr rfl)

/-! ### C4: the create-or-update fallback pattern -/

/-- Replica seeding of `CreateOrUpdateDeploy` is exactly
`currentPodReplicasFromDeploy`, whatever the later stages do. -/
theorem replicasSeeded_eq (replicasBuild : Option K8sErr)
    (replicasGet : Except K8sErr DeployStatus)
    (specRes updateRes createRes : Option K8sErr) :
    (CreateOrUpdateDeploy none replicasBuild replicasGet
        specRes updateRes createRes).replicasSeeded
      = some (currentPodReplicasFromDeploy replicasBuild replicasGet) := by
  cases specRes <;> rfl

/-- C4: across every create-or-update operation (secrets, config maps,
deployments, cron jobs, autoscalers) the update is attempted first; the
create is attempted if and only if the update failed with NotFound (in
which case the create's outcome is returned); and any non-NotFound update
error is returned unmodified with no create attempted. -/
theorem create_or_update_fallback_pattern
    (updateRes createRes replicasBuild : Option K8sErr)
    (replicasGet : Except K8sErr DeployStatus) :
    ((createOrUpdate updateRes createRes).createAttempted = true
        ↔ updateRes = some K8sErr.notFound)
    ∧ (updateRes = some K8sErr.notFound →
        (createOrUpdate updateRes createRes).err = createRes)
    ∧ (∀ e, updateRes = some e → e ≠ K8sErr.notFound →
        (createOrUpdate updateRes createRes).err = some e
        ∧ (createOrUpdate updateRes createRes).createAttempted = false)
    ∧ (updateRes = none →
        (createOrUpdate updateRes createRes).err = none
        ∧ (createOrUpdate updateRes createRes).createAttempted = false)
    ∧ CreateOrUpdateSecret none updateRes createRes
        = createOrUpdate updateRes createRes
    ∧ CreateOrUpdateConfigMap none updateRes createRes
        = createOrUpdate updateRes createRes
    ∧ CreateOrUpdateAutoscale none updateRes createRes
        = createOrUpdate updateRes createRes
    ∧ CreateOrUpdateCronJob none none updateRes createRes
        = createOrUpdate updateRes createRes
    ∧ (CreateOrUpdateDeploy none replicasBuild replicasGet
          none updateRes createRes).err
        = (createOrUpdate updateRes createRes).err
    ∧ (CreateOrUpdateDeploy none replicasBuild replicasGet
          none updateRes createRes).createAttempted
        = (createOrUpdate updateRes createRes).createAttempted := by
  refine ⟨?_, ?_, ?_, ?_, rfl, rfl, rfl, rfl, rfl, rfl⟩
  · constructor
    · intro h
      match updateRes with
      | none => cases h
      | some K8sErr.notFound => rfl
      | some K8sErr.podRunFailed => cases h
      | some K8sErr.podStillRunning => cases h
      | some K8sErr.waitTimeout => cases h
      | some (K8sErr.other m) => cases h
    · rintro rfl; rfl
  · rintro rfl; rfl
  · rintro e rfl hne
    have hnf : IsNotFound (some e) = false := by
      match e with
      | K8sErr.notFound => exact absurd rfl hne
      | K8sErr.podRunFailed => rfl
      | K8sErr.podStillRunning => rfl
      | K8sErr.waitTimeout => rfl
      | K8sErr.other m => rfl
    simp [createOrUpdate, hnf]
  · rintro rfl; exact ⟨rfl, rfl⟩

/-- C4 witness: a non-NotFound update error (a permission failure) is
returned unmodified and no create is attempted, instantiated alongside the
per-kind reductions. -/
theorem create_or_update_fallback_witness :
    (createOrUpdate (some (K8sErr.other "forbidden")) none).err
        = some (K8sErr.other "forbidden")
    ∧ (createOrUpdate (some (K8sErr.other "forbidden")) none).createAttempted
        = false
    ∧ CreateOrUpdateSecret none (some (K8sErr.other "forbidden")) none
        = createOrUpdate (some (K8sErr.other "forbidden")) none :=
  ⟨((create_or_update_fallback_pattern (some (K8sErr.other "forbidden")) none
      none (Except.error K8sErr.notFound)).2.2.1
      (K8sErr.other "forbidden") rfl (by decide)).1,
   ((create_or_update_fallback_pattern (some (K8sErr.other "forbidden")) none
      none (Except.error K8sErr.notFound)).2.2.1
      (K8sErr.other "forbidden") rfl (by decide)).2,
   (create_or_update_fallback_pattern (some (K8sErr.other "forbidden")) none
      none (Except.error K8sErr.notFound)).2.2.2.2.1⟩

/-! ### C5 and C10: replica seeding -/

/-- C5: `CreateOrUpdateDeploy` seeds the desired manifest's replica count
from `currentPodReplicasFromDeploy`, which reads the live deployment state:
it returns the live replica count when the read succeeds (and reports at
least 1 replica), and defaults to 1 when the client cannot be built, when
no prior deployment exists, or when the read fails. -/
theorem deploy_replicas_seeded_from_live (replicasBuild : Option K8sErr)
    (replicasGet : Except K8sErr DeployStatus)
    (specRes updateRes createRes : Option K8sErr) :
    (CreateOrUpdateDeploy none replicasBuild replicasGet
        specRes updateRes createRes).replicasSeeded
      = some (currentPodReplicasFromDeploy replicasBuild replicasGet)
    ∧ (∀ e, replicasGet = Except.error e →
        currentPodReplicasFromDeploy replicasBuild replicasGet = 1)
    ∧ (∀ e, replicasBuild = some e →
        currentPodReplicasFromDeploy replicasBuild replicasGet = 1)
    ∧ (∀ d, replicasBuild = none → replicasGet = Except.ok d →
        1 ≤ d.replicas →
        currentPodReplicasFromDeploy replicasBuild replicasGet = d.replicas) := by
  refine ⟨replicasSeeded_eq replicasBuild replicasGet specRes updateRes createRes,
    ?_, ?_, ?_⟩
  · rintro e rfl
    cases replicasBuild <;> rfl
  · rintro e rfl
    rfl
  · rintro d rfl rfl hge
    have hlt : ¬ d.replicas < 1 := not_lt.mpr hge
    simp [currentPodReplicasFromDeploy, hlt]

/-- C5 witness: a live deployment reporting 3 replicas seeds the manifest
with 3; a NotFound read seeds it with 1. -/
theorem deploy_replicas_seeded_witness :
    (CreateOrUpdateDeploy none none (Except.ok ⟨3⟩)
        none none none).replicasSeeded
      = some (currentPodReplicasFromDeploy none (Except.ok ⟨3⟩))
    ∧ currentPodReplicasFromDeploy none (Except.ok (⟨3⟩ : DeployStatus)) = 3
    ∧ currentPodReplicasFromDeploy none
        (Except.error (α := DeployStatus) K8sErr.notFound) = 1 :=
  ⟨(deploy_replicas_seeded_from_live none (Except.ok ⟨3⟩) none none none).1,
   (deploy_replicas_seeded_from_live none (Except.ok ⟨3⟩) none none none).2.2.2
      ⟨3⟩ rfl rfl (by decide),
   (deploy_replicas_seeded_from_live none (Except.error K8sErr.notFound)
      none none none).2.1 K8sErr.notFound rfl⟩

/-- C10: `currentPodReplicasFromDeploy` always returns at least 1 — it
returns 1 not only when the client cannot be built or the read fails but
also when the live deployment reports fewer than 1 replica — and
`CreateOrUpdateDeploy` seeds the manifest with exactly this value, so a
deployment currently scaled to 0 is re-applied with 1 replica. -/
theorem current_replicas_minimum_one (replicasBuild : Option K8sErr)
    (replicasGet : Except K8sErr DeployStatus) :
    1 ≤ currentPodReplicasFromDeploy replicasBuild replicasGet
    ∧ (∀ d, replicasGet = Except.ok d → d.replicas < 1 →
        currentPodReplicasFromDeploy replicasBuild replicasGet = 1)
    ∧ (∀ specRes updateRes createRes,
        (CreateOrUpdateDeploy none replicasBuild replicasGet
            specRes updateRes createRes).replicasSeeded
          = some (currentPodReplicasFromDeploy replicasBuild replicasGet)) := by
  refine ⟨?_, ?_, fun specRes updateRes createRes =>
    replicasSeeded_eq replicasBuild replicasGet specRes updateRes createRes⟩
  · match replicasBuild with
    | some _ => exact le_refl 1
    | none =>
      match replicasGet with
      | Except.error _ => exact le_refl 1
      | Except.ok d =>
        by_cases hlt : d.replicas < 1
        · simp [currentPodReplicasFromDeploy, hlt]
        · simp only [currentPodReplicasFromDeploy, if_neg hlt]
          exact not_lt.mp hlt
  · rintro d rfl hlt
    cases replicasBuild with
    | some e => rfl
    | none => simp [currentPodReplicasFromDeploy, hlt]

/-- C10 witness: a deployment scaled to 0 replicas is seeded with 1. -/
theorem current_replicas_minimum_witness :
    1 ≤ currentPodReplicasFromDeploy none (Except.ok (⟨0⟩ : DeployStatus))
    ∧ currentPodReplicasFromDeploy none (Except.ok (⟨0⟩ : DeployStatus)) = 1
    ∧ (CreateOrUpdateDeploy none none (Except.ok ⟨0⟩)
          none none none).replicasSeeded
        = some (currentPodReplicasFromDeploy none (Except.ok ⟨0⟩)) :=
  ⟨(current_replicas_minimum_one none (Except.ok ⟨0⟩)).1,
   (current_replicas_minimum_one none (Except.ok ⟨0⟩)).2.1 ⟨0⟩ rfl (by decide),
   (current_replicas_minimum_one none (Except.ok ⟨0⟩)).2.2 none none none⟩

/-! ### C7: exit-code extraction -/

/-- When no container status carries a terminated state, the scan finds
none. -/
theorem firstTerminated_eq_none (l : List ContainerStatus)
    (h : ∀ cs ∈ l, cs.terminated = none) :
    firstTerminated l = none := by
  induction l with
  | nil => rfl
  | cons a as ih =>
    have ha := h a (by simp)
    simp [firstTerminated, ha, ih fun x hx => h x (by simp [hx])]

/-- The scan returns the first terminated state, skipping earlier
non-terminated containers. -/
theorem firstTerminated_of_first (pre rest : List ContainerStatus)
    (cs : ContainerStatus) (t : ContainerStateTerminated)
    (hpre : ∀ x ∈ pre, x.terminated = none)
    (hcs : cs.terminated = some t) :
    firstTerminated (pre ++ cs :: rest) = some t := by
  induction pre with
  | nil => simp [firstTerminated, hcs]
  | cons a as ih =>
    have ha := hpre a (by simp)
    simp [firstTerminated, ha, ih fun x hx => hpre x (by simp [hx])]

/-- C7: when the pod status contains no terminated container state,
`podExitCode` returns the inconsistency error `ErrPodStillRunning` (with
the placeholder value 1) rather than a guessed exit code; in a run session
any exit-code-read error prevents any value from being emitted on the
completion channel; and when a terminated container state is present, the
returned value is that (first such) container's numeric exit code with no
error. -/
theorem pod_exit_code_no_terminated_error (st : PodStatus)
    (hterm : ∀ cs ∈ st.containerStatuses, cs.terminated = none) :
    podExitCode none (Except.ok st) = (1, some K8sErr.podStillRunning)
    ∧ (∀ env : RunEnv,
        (podExitCode env.exitBuild env.exitGet).2.isSome = true →
        emissions (runSessionTrace env) = [])
    ∧ (∀ (ph : PodPhase) (pre rest : List ContainerStatus)
        (cs : ContainerStatus) (t : ContainerStateTerminated),
        (∀ x ∈ pre, x.terminated = none) → cs.terminated = some t →
        podExitCode none (Except.ok ⟨ph, pre ++ cs :: rest⟩)
          = (t.exitCode, none)) := by
  refine ⟨?_, ?_, ?_⟩
  · simp [podExitCode, firstTerminated_eq_none st.containerStatuses hterm]
  · intro env hx2
    rcases hs : waitPodStart env.startBuild env.startObs with _ | e1
    case some => rw [trace_start_err env e1 hs]; rfl
    case none =>
    rcases hl : env.logsRes with _ | e2
    case some => rw [trace_logs_err env e2 hs hl]; rfl
    case none =>
    rcases he : waitPodEnd env.endBuild env.endObs with _ | e3
    case some => rw [trace_end_err env e3 hs hl he]; rfl
    case none =>
    rcases hx : podExitCode env.exitBuild env.exitGet with ⟨c, _ | e4⟩
    case none => rw [hx] at hx2; cases hx2
    case some => rw [trace_exit_err env e4 c hs hl he hx]; rfl
  · intro ph pre rest cs t hpre hcs
    simp [podExitCode, firstTerminated_of_first pre rest cs t hpre hcs]

/-- C7 witness: a pod whose single container is still running yields the
inconsistency error, and a pod whose container terminated with code 137
yields 137. -/
theorem pod_exit_code_no_terminated_witness :
    podExitCode none (Except.ok (⟨PodPhase.succeeded, [⟨none⟩]⟩ : PodStatus))
      = (1, some K8sErr.podStillRunning)
    ∧ podExitCode none
        (Except.ok (⟨PodPhase.failed, [] ++ (⟨some ⟨137⟩⟩ : ContainerStatus) :: []⟩ : PodStatus))
      = (137, none) :=
  ⟨(pod_exit_code_no_terminated_error ⟨PodPhase.succeeded, [⟨none⟩]⟩
      (by decide)).1,
   (pod_exit_code_no_terminated_error ⟨PodPhase.succeeded, [⟨none⟩]⟩
      (by decide)).2.2 PodPhase.failed [] [] ⟨some ⟨137⟩⟩ ⟨137⟩
      (by simp) rfl⟩

/-! ### C9: delete-env-var patch payload -/

/-- C9: for every list of environment-variable names, the delete-env-var
patch payload built by `DeleteDeployEnvVars` and `DeleteCronJobEnvVars`
contains for each named variable an entry carrying the explicit deletion
marker (the value "delete" under the JSON key "$patch"), every entry in the
payload carries that marker (none is absent or unset), and the entry list
is exactly the image of the name list under `convertAppDeleteEnvVar`. -/
theorem delete_env_vars_deletion_marker (now ns name : String)
    (evNames : List String) :
    (∀ n ∈ evNames,
        (⟨n, "delete"⟩ : DeleteEnvVarEntry)
          ∈ (DeleteDeployEnvVars now ns name evNames).env)
    ∧ (∀ entry ∈ (DeleteDeployEnvVars now ns name evNames).env,
        entry.patchDirective = "delete")
    ∧ (DeleteDeployEnvVars now ns name evNames).env
        = convertAppDeleteEnvVar evNames
    ∧ (DeleteCronJobEnvVars now ns name evNames).env
        = convertAppDeleteEnvVar evNames
    ∧ (convertAppDeleteEnvVar evNames).length = evNames.length := by
  refine ⟨?_, ?_, rfl, rfl, List.length_map evNames _⟩
  · intro n hn
    exact List.mem_map.mpr ⟨n, hn, rfl⟩
  · intro entry he
    rcases List.mem_map.mp he with ⟨n, hn, rfl⟩
    rfl

/-- C9 witness: the payload for deleting K1 and K2 contains the explicit
deletion entries for both names. -/
theorem delete_env_vars_deletion_witness :
    (⟨"K1", "delete"⟩ : DeleteEnvVarEntry)
        ∈ (DeleteDeployEnvVars "t0" "myns" "myapp" ["K1", "K2"]).env
    ∧ (DeleteDeployEnvVars "t0" "myns" "myapp" ["K1", "K2"]).env
        = convertAppDeleteEnvVar ["K1", "K2"]
    ∧ (DeleteCronJobEnvVars "t0" "myns" "myapp" ["K1", "K2"]).env
        = convertAppDeleteEnvVar ["K1", "K2"] :=
  ⟨(delete_env_vars_deletion_marker "t0" "myns" "myapp" ["K1", "K2"]).1
      "K1" (by simp),
   (delete_env_vars_deletion_marker "t0" "myns" "myapp" ["K1", "K2"]).2.2.1,
   (delete_env_vars_deletion_marker "t0" "myns" "myapp" ["K1", "K2"]).2.2.2.1⟩

end K8s
